import Mathlib

set_option maxRecDepth 8000

/-!
Verification of the resume screening/scoring engine of the Resume-Scanner API
(`app/services/extraction.py`, data model in `app/models/resume.py`, scoring
weights in `app/core/config.py`).

Modelling conventions of the shallow embedding:
* Python `float` arithmetic is modelled by exact rational arithmetic (`ℚ`);
  `round(x, 2)` is modelled by `round2` below (Mathlib `round`, half-up at
  exact ties; all concrete inputs used in proofs keep clear of exact ties,
  where every rounding convention agrees).
* Python strings are Lean `String`s; `str.lower` / `str.strip` / substring
  containment are modelled by the executable character-list functions
  `lowerStr` / `trimStr` / `containsSub` (faithful on ASCII data).
* A Python `set` of strings is modelled by a deduplicated `List String`
  (Python set iteration order is implementation defined; the model fixes one
  order, and set-level claims are stated about `List.toFinset` images).
* `uuid.uuid4()` (the fresh `resume_id`) is external nondeterminism; the
  model uses a placeholder constant, and no claim mentions `resume_id`.
* `datetime` fields of extraction jobs are irrelevant to every claim and are
  not modelled.
-/

namespace ResumeScanner

/-! ### Python string primitives -/

/-- Model of Python `str.lower` (character-wise lowering, faithful on ASCII). -/
def lowerStr (s : String) : String := String.mk (s.data.map Char.toLower)

/-- The whitespace characters stripped by Python `str.strip()`. -/
def isPySpace (c : Char) : Bool :=
  c == ' ' || c == '\t' || c == '\n' || c == '\r' || c == '\x0b' || c == '\x0c'

/-- Model of Python `str.strip()`: drop whitespace from both ends. -/
def trimStr (s : String) : String :=
  String.mk (((s.data.dropWhile isPySpace).reverse.dropWhile isPySpace).reverse)

/-- `leadsWith needle hay`: `hay` starts with `needle`. -/
def leadsWith : List Char → List Char → Bool
  | [], _ => true
  | _ :: _, [] => false
  | a :: as, b :: bs => a == b && leadsWith as bs

/-- Model of Python substring containment `needle in hay`. -/
def containsSub (needle : List Char) : List Char → Bool
  | [] => needle.isEmpty
  | c :: rest => leadsWith needle (c :: rest) || containsSub needle rest

/-! ### Data model (`app/models/resume.py`) -/

/-- `Education` entry of a resume. -/
structure Education where
  institution : String
  degree : String
  start_date : Option String := none
  end_date : Option String := none

/-- `Experience` entry of a resume. -/
structure Experience where
  company : String
  title : String
  description : Option String := none
  start_date : Option String := none
  end_date : Option String := none

/-- `TechnicalSkills` block of a resume. -/
structure TechnicalSkills where
  programming_languages : List String
  frameworks : List String
  skills : List String

/-- Extracted `Resume` record. -/
structure Resume where
  name : String
  email : String
  links : List String
  experience : List Experience
  education : List Education
  technical_skills : TechnicalSkills
  key_accomplishments : String

/-- `ScreeningCriteria` supplied by the caller. -/
structure ScreeningCriteria where
  required_skills : List String := []
  preferred_skills : List String := []
  min_years_experience : Option Int := none
  required_education_level : Option String := none
  keywords : List String := []

/-- `ScreeningResult` produced by the engine.  Skill-list fields hold
normalized lowercase strings in the model's canonical set order. -/
structure ScreeningResult where
  resume_id : String
  candidate_name : String
  candidate_email : String
  overall_score : ℚ
  skills_score : ℚ
  experience_score : ℚ
  education_score : ℚ
  matched_required_skills : List String
  matched_preferred_skills : List String
  missing_required_skills : List String
  recommendations : List String
  qualified : Bool

/-- `ResumeExtractionJob` as consumed by the batch screener (`job_id`,
`status`, `extracted_data` are the fields the screener reads). -/
structure ResumeExtractionJob where
  job_id : String
  filename : String
  status : String
  error_message : Option String := none
  extracted_data : Option Resume := none

/-! ### Configuration (`app/core/config.py`) -/

/-- `Settings.DEFAULT_SCORING_WEIGHTS` from `app/core/config.py`. -/
structure ScoringWeights where
  skills : ℚ
  experience : ℚ
  education : ℚ
  accomplishments : ℚ

/-- The default weight dictionary: skills 0.4, experience 0.3, education 0.2,
accomplishments 0.1. -/
def DEFAULT_SCORING_WEIGHTS : ScoringWeights :=
  { skills := 4/10, experience := 3/10, education := 2/10, accomplishments := 1/10 }

/-! ### Scoring helpers (`LlamaExtractionService` methods) -/

/-- `_calculate_experience_years`: two years per experience entry. -/
def calculate_experience_years (experiences : List Experience) : Nat :=
  experiences.length * 2

/-- `_normalize_skills`: lowercase and strip each entry, dropping entries that
are empty after stripping. -/
def normalize_skills (skills : List String) : List String :=
  (skills.filter (fun skill => trimStr skill ≠ "")).map (fun skill => trimStr (lowerStr skill))

/-- `set(self._normalize_skills(...))`: the normalized skill set, as a
deduplicated list. -/
def setNorm (skills : List String) : List String :=
  (normalize_skills skills).dedup

/-- The tuple returned by `_calculate_skills_score`. -/
structure SkillsScoreResult where
  score : ℚ
  matched_required : List String
  matched_preferred : List String
  missing_required : List String

/-- `_calculate_skills_score`: set intersections/differences of normalized
skills, and the weighted score `(required*0.8 + preferred*0.2) * 100`. -/
def calculate_skills_score (resume_skills : List String)
    (criteria : ScreeningCriteria) : SkillsScoreResult :=
  let normalized_resume_skills := setNorm resume_skills
  let normalized_required := setNorm criteria.required_skills
  let normalized_preferred := setNorm criteria.preferred_skills
  let matched_required := normalized_resume_skills.filter (fun s => s ∈ normalized_required)
  let matched_preferred := normalized_resume_skills.filter (fun s => s ∈ normalized_preferred)
  let missing_required := normalized_required.filter (fun s => s ∉ normalized_resume_skills)
  let required_score : ℚ := (matched_required.length : ℚ) / ((max normalized_required.length 1 : Nat) : ℚ)
  let preferred_score : ℚ :=
    if normalized_preferred.isEmpty then 0
    else (matched_preferred.length : ℚ) / ((max normalized_preferred.length 1 : Nat) : ℚ)
  let skills_score := required_score * (8/10) + preferred_score * (2/10)
  { score := skills_score * 100,
    matched_required := matched_required,
    matched_preferred := matched_preferred,
    missing_required := missing_required }

/-- The `education_levels` ordinal vocabulary, in source iteration order. -/
def education_levels : List (String × Nat) :=
  [("high school", 1), ("associate", 2), ("bachelor", 3),
   ("master", 4), ("phd", 5), ("doctorate", 5)]

/-- `education_levels.get(key, 0)`: exact dictionary lookup of a (lowercased)
required-level string, defaulting to ordinal 0. -/
def lookup_level (key : String) : Nat :=
  match education_levels.find? (fun p => p.1 = key) with
  | some p => p.2
  | none => 0

/-- The ordinal an education entry's degree text contributes: the value of the
first vocabulary key occurring as a substring of the lowercased degree
(`break` after the first match), 0 when none matches. -/
def entryLevel (degree : String) : Nat :=
  match education_levels.find? (fun p => containsSub p.1.data (lowerStr degree).data) with
  | some p => p.2
  | none => 0

/-- `max_candidate_level`: running maximum of `entryLevel` over the education
entries, starting from 0. -/
def maxCandidateLevel (education : List Education) : Nat :=
  education.foldl (fun acc edu => max acc (entryLevel edu.degree)) 0

/-- Python falsiness of an `Optional[str]` (`None` or `""`). -/
def optStrFalsy : Option String → Bool
  | none => true
  | some s => s = ""

/-- Python falsiness of an `Optional[int]` (`None` or `0`). -/
def optIntFalsy : Option Int → Bool
  | none => true
  | some n => n = 0

/-- `_calculate_education_score`. -/
def calculate_education_score (education : List Education)
    (criteria : ScreeningCriteria) : ℚ :=
  if optStrFalsy criteria.required_education_level then 100
  else
    let required_level := lookup_level (lowerStr (criteria.required_education_level.getD ""))
    let max_candidate_level := maxCandidateLevel education
    if max_candidate_level ≥ required_level then 100
    else ((max_candidate_level : ℚ) / (required_level : ℚ)) * 100

/-- `_calculate_experience_score`. -/
def calculate_experience_score (experiences : List Experience)
    (criteria : ScreeningCriteria) : ℚ :=
  if optIntFalsy criteria.min_years_experience then 100
  else
    let min_years := criteria.min_years_experience.getD 0
    let total_years : Int := (calculate_experience_years experiences : Int)
    if total_years ≥ min_years then 100
    else ((total_years : ℚ) / (min_years : ℚ)) * 100

/-! ### Single-resume screening (`screen_resume`) -/

/-- Model of Python `round(x, 2)`. -/
def round2 (q : ℚ) : ℚ := ((round (q * 100) : Int) : ℚ) / 100

/-- The flat concatenation of programming languages, frameworks and skills
computed at the top of `screen_resume`. -/
def all_skills (resume : Resume) : List String :=
  resume.technical_skills.programming_languages ++
  resume.technical_skills.frameworks ++
  resume.technical_skills.skills

/-- The overall score of `screen_resume` before rounding: weighted sum of the
three sub-scores, plus the accomplishments bonus when `key_accomplishments`
is non-empty, capped at 100. -/
def overall_raw (resume : Resume) (criteria : ScreeningCriteria) : ℚ :=
  let skills_score := (calculate_skills_score (all_skills resume) criteria).score
  let education_score := calculate_education_score resume.education criteria
  let experience_score := calculate_experience_score resume.experience criteria
  let weights := DEFAULT_SCORING_WEIGHTS
  let base := skills_score * weights.skills + experience_score * weights.experience +
    education_score * weights.education
  let with_bonus :=
    if resume.key_accomplishments ≠ "" then
      base + min 10 ((resume.key_accomplishments.length : ℚ) / 50)
    else base
  min 100 with_bonus

/-- `screen_resume`: screen a single resume against criteria. -/
def screen_resume (resume : Resume) (criteria : ScreeningCriteria) : ScreeningResult :=
  let sk := calculate_skills_score (all_skills resume) criteria
  let education_score := calculate_education_score resume.education criteria
  let experience_score := calculate_experience_score resume.experience criteria
  let overall_score := overall_raw resume criteria
  let qualified := decide (sk.missing_required.length = 0) && decide ((60 : ℚ) ≤ overall_score)
  let recommendations :=
    (if sk.missing_required.length ≠ 0 then
       ["Missing required skills: " ++ String.intercalate ", " sk.missing_required]
     else []) ++
    (if education_score < 80 then ["Education level below preferred requirement"] else []) ++
    (if experience_score < 70 then ["Experience level below minimum requirement"] else []) ++
    [if (80 : ℚ) ≤ overall_score then "Strong candidate - recommended for interview"
     else if (60 : ℚ) ≤ overall_score then "Good candidate - consider for screening call"
     else "Below minimum requirements"]
  { resume_id := "",
    candidate_name := resume.name,
    candidate_email := resume.email,
    overall_score := round2 overall_score,
    skills_score := round2 sk.score,
    experience_score := round2 experience_score,
    education_score := round2 education_score,
    matched_required_skills := sk.matched_required,
    matched_preferred_skills := sk.matched_preferred,
    missing_required_skills := sk.missing_required,
    recommendations := recommendations,
    qualified := qualified }

/-! ### Batch screening (`batch_screen_resumes`) -/

/-- The descending-by-`overall_score` ordering used by
`results.sort(key=lambda x: x.overall_score, reverse=True)`. -/
def byScoreDesc (a b : ScreeningResult) : Prop :=
  b.overall_score ≤ a.overall_score

instance : DecidableRel byScoreDesc :=
  fun a b => inferInstanceAs (Decidable (b.overall_score ≤ a.overall_score))

instance : IsTotal ScreeningResult byScoreDesc :=
  ⟨fun a b => le_total b.overall_score a.overall_score⟩

instance : IsTrans ScreeningResult byScoreDesc :=
  ⟨fun _ _ _ hab hbc => le_trans hbc hab⟩

/-- `batch_screen_resumes`: resolve each job id through `get_job_status`,
screen records whose status is `"SUCCESS"` with extracted data (a screening
that raises — modelled by `Except.error` — is caught and the resume skipped),
keep qualified results (or all, when `include_unqualified`), then stable-sort
by overall score descending (Python `list.sort` is stable; modelled by
insertion sort, which is stable for this ordering). -/
def batch_screen_resumes (get_job_status : String → Option ResumeExtractionJob)
    (screen : Resume → ScreeningCriteria → Except String ScreeningResult)
    (job_ids : List String) (criteria : ScreeningCriteria)
    (include_unqualified : Bool) : List ScreeningResult :=
  let results := job_ids.foldl (fun acc job_id =>
    match get_job_status job_id with
    | some job =>
      if job.status = "SUCCESS" then
        match job.extracted_data with
        | some resume =>
          match screen resume criteria with
          | Except.ok result =>
            if include_unqualified || result.qualified then acc ++ [result] else acc
          | Except.error _ => acc
        | none => acc
      else acc
    | none => acc) []
  List.insertionSort byScoreDesc results

/-- Specification-shaped description of one loop step of
`batch_screen_resumes`: the optionally-kept result for one job id. -/
def screen_step (get_job_status : String → Option ResumeExtractionJob)
    (screen : Resume → ScreeningCriteria → Except String ScreeningResult)
    (criteria : ScreeningCriteria) (include_unqualified : Bool)
    (job_id : String) : Option ScreeningResult :=
  match get_job_status job_id with
  | some job =>
    if job.status = "SUCCESS" then
      match job.extracted_data with
      | some resume =>
        match screen resume criteria with
        | Except.ok result =>
          if include_unqualified || result.qualified then some result else none
        | Except.error _ => none
      | none => none
    else none
  | none => none

/-! ### Concrete records used in closed evaluations -/

/-- A resume holding the one required skill, one experience entry and a
399-character accomplishments text. -/
def cexResume : Resume :=
  { name := "Jane Doe",
    email := "jane@example.com",
    links := [],
    experience := [{ company := "Acme", title := "Engineer" }],
    education := [],
    technical_skills := { programming_languages := ["python"], frameworks := [], skills := [] },
    key_accomplishments := String.mk (List.replicate 399 'a') }

/-- Criteria demanding `"python"` and 3001 years of experience. -/
def cexCriteria : ScreeningCriteria :=
  { required_skills := ["python"],
    preferred_skills := [],
    min_years_experience := some 3001,
    required_education_level := none,
    keywords := [] }

/-! ### Helper lemmas -/

theorem setNorm_nodup (l : List String) : (setNorm l).Nodup :=
  List.nodup_dedup _

theorem filter_mem_toFinset (l m : List String) :
    (l.filter (fun s => s ∈ m)).toFinset = l.toFinset ∩ m.toFinset := by
  ext s
  simp [Finset.mem_inter]

theorem filter_not_mem_toFinset (l m : List String) :
    (l.filter (fun s => s ∉ m)).toFinset = l.toFinset \ m.toFinset := by
  ext s
  simp [Finset.mem_sdiff]

theorem length_filter_mem (l m : List String) (h : l.Nodup) :
    (l.filter (fun s => s ∈ m)).length = (l.toFinset ∩ m.toFinset).card := by
  rw [← filter_mem_toFinset, List.toFinset_card_of_nodup (h.filter _)]

theorem length_filter_not_mem (l m : List String) (h : l.Nodup) :
    (l.filter (fun s => s ∉ m)).length = (l.toFinset \ m.toFinset).card := by
  rw [← filter_not_mem_toFinset, List.toFinset_card_of_nodup (h.filter _)]

theorem setNorm_toFinset_card (l : List String) :
    (setNorm l).toFinset.card = (setNorm l).length :=
  List.toFinset_card_of_nodup (setNorm_nodup l)

theorem setNorm_isEmpty_iff (l : List String) :
    (setNorm l).isEmpty = true ↔ (setNorm l).toFinset = ∅ := by
  rw [List.isEmpty_iff, List.toFinset_eq_empty_iff]

theorem div_nat_bounds (a b : Nat) (hab : a ≤ b) (hb : 0 < b) :
    0 ≤ ((a : ℚ) / (b : ℚ)) ∧ (a : ℚ) / (b : ℚ) ≤ 1 := by
  constructor
  · positivity
  · rw [div_le_one (by exact_mod_cast hb)]
    exact_mod_cast hab

theorem skills_score_bounds (resume_skills : List String) (criteria : ScreeningCriteria) :
    0 ≤ (calculate_skills_score resume_skills criteria).score ∧
    (calculate_skills_score resume_skills criteria).score ≤ 100 := by
  obtain ⟨hr0, hr1⟩ := div_nat_bounds
    (((setNorm resume_skills).filter (fun s => s ∈ setNorm criteria.required_skills)).length)
    (max (setNorm criteria.required_skills).length 1)
    (by
      rw [length_filter_mem _ _ (setNorm_nodup _)]
      refine le_trans (Finset.card_le_card Finset.inter_subset_right) ?_
      rw [setNorm_toFinset_card]
      exact le_max_left _ _)
    (lt_of_lt_of_le Nat.zero_lt_one (le_max_right _ _))
  obtain ⟨hp0, hp1⟩ := div_nat_bounds
    (((setNorm resume_skills).filter (fun s => s ∈ setNorm criteria.preferred_skills)).length)
    (max (setNorm criteria.preferred_skills).length 1)
    (by
      rw [length_filter_mem _ _ (setNorm_nodup _)]
      refine le_trans (Finset.card_le_card Finset.inter_subset_right) ?_
      rw [setNorm_toFinset_card]
      exact le_max_left _ _)
    (lt_of_lt_of_le Nat.zero_lt_one (le_max_right _ _))
  simp only [calculate_skills_score]
  by_cases hp : (setNorm criteria.preferred_skills).isEmpty
  · rw [if_pos hp]
    constructor <;> nlinarith [hr0, hr1]
  · rw [if_neg hp]
    constructor <;> nlinarith [hr0, hr1, hp0, hp1]

theorem education_score_bounds (education : List Education) (criteria : ScreeningCriteria) :
    0 ≤ calculate_education_score education criteria ∧
    calculate_education_score education criteria ≤ 100 := by
  simp only [calculate_education_score]
  split_ifs with h1 h2
  · norm_num
  · norm_num
  · have hlt : maxCandidateLevel education <
        lookup_level (lowerStr (criteria.required_education_level.getD "")) := not_le.mp h2
    have hR : 0 < lookup_level (lowerStr (criteria.required_education_level.getD "")) :=
      lt_of_le_of_lt (Nat.zero_le _) hlt
    obtain ⟨hq0, hq1⟩ := div_nat_bounds _ _ hlt.le hR
    constructor
    · nlinarith [hq0]
    · nlinarith [hq1]

theorem experience_score_bounds (experiences : List Experience) (criteria : ScreeningCriteria) :
    0 ≤ calculate_experience_score experiences criteria ∧
    calculate_experience_score experiences criteria ≤ 100 := by
  simp only [calculate_experience_score]
  split_ifs with h1 h2
  · norm_num
  · norm_num
  · have h0t : (0 : Int) ≤ (calculate_experience_years experiences : Int) :=
      Int.natCast_nonneg _
    have hlt : (calculate_experience_years experiences : Int) <
        criteria.min_years_experience.getD 0 := not_le.mp h2
    have hm : (0 : Int) < criteria.min_years_experience.getD 0 := lt_of_le_of_lt h0t hlt
    have hq0 : (0 : ℚ) ≤ ((calculate_experience_years experiences : Int) : ℚ) /
        ((criteria.min_years_experience.getD 0 : Int) : ℚ) :=
      div_nonneg (by exact_mod_cast h0t) (by exact_mod_cast hm.le)
    have hq1 : ((calculate_experience_years experiences : Int) : ℚ) /
        ((criteria.min_years_experience.getD 0 : Int) : ℚ) ≤ 1 := by
      rw [div_le_one (by exact_mod_cast hm)]
      exact_mod_cast hlt.le
    constructor
    · nlinarith [hq0]
    · nlinarith [hq1]

theorem overall_raw_eq (resume : Resume) (criteria : ScreeningCriteria) :
    overall_raw resume criteria =
      min 100 ((calculate_skills_score (all_skills resume) criteria).score * (4/10) +
        calculate_experience_score resume.experience criteria * (3/10) +
        calculate_education_score resume.education criteria * (2/10) +
        (if resume.key_accomplishments ≠ "" then
          min 10 ((resume.key_accomplishments.length : ℚ) / 50) else 0)) := by
  simp only [overall_raw, DEFAULT_SCORING_WEIGHTS]
  split_ifs with h
  · ring_nf
  · ring_nf

theorem overall_raw_bounds (resume : Resume) (criteria : ScreeningCriteria) :
    0 ≤ overall_raw resume criteria ∧ overall_raw resume criteria ≤ 100 := by
  obtain ⟨hs0, hs1⟩ := skills_score_bounds (all_skills resume) criteria
  obtain ⟨he0, he1⟩ := education_score_bounds resume.education criteria
  obtain ⟨hx0, hx1⟩ := experience_score_bounds resume.experience criteria
  rw [overall_raw_eq]
  refine ⟨le_min (by norm_num) ?_, min_le_left _ _⟩
  have hb : 0 ≤ (if resume.key_accomplishments ≠ "" then
      min 10 ((resume.key_accomplishments.length : ℚ) / 50) else 0) := by
    split_ifs
    · exact le_min (by norm_num) (by positivity)
    · exact le_refl 0
  nlinarith [hs0, hx0, he0, hb]

theorem round2_nonneg (q : ℚ) (h : 0 ≤ q) : 0 ≤ round2 q := by
  unfold round2
  apply div_nonneg _ (by norm_num : (0:ℚ) ≤ 100)
  have hr : (0:ℤ) ≤ round (q * 100) := by
    rw [round_eq]
    exact Int.le_floor.mpr (by push_cast; linarith)
  exact_mod_cast hr

theorem round2_le_100 (q : ℚ) (h : q ≤ 100) : round2 q ≤ 100 := by
  unfold round2
  rw [div_le_iff₀ (by norm_num : (0:ℚ) < 100)]
  have hr : round (q * 100) ≤ 10000 := by
    rw [round_eq]
    have h2 : q * 100 + 1/2 ≤ (10000 : ℚ) + 1/2 := by linarith
    calc ⌊q * 100 + 1/2⌋ ≤ ⌊(10000:ℚ) + 1/2⌋ := Int.floor_mono h2
    _ = 10000 := by norm_num [Int.floor_eq_iff]
  calc ((round (q * 100) : ℤ) : ℚ) ≤ ((10000 : ℤ) : ℚ) := by exact_mod_cast hr
  _ = 100 * 100 := by norm_num

theorem round2_den (q : ℚ) : (round2 q * 100).den = 1 := by
  unfold round2
  rw [div_mul_cancel₀ _ (by norm_num : (100:ℚ) ≠ 0)]
  exact Rat.den_intCast _

/-! ### Claim theorems -/

/-- **C3.** For every resume-skills list and criteria, the unrounded skills
score equals `((|matched_required| / max(|required|, 1)) * 0.8 +
(|matched_preferred| / |preferred| if preferred nonempty else 0) * 0.2) * 100`
over the normalized deduplicated skill sets; and when both `required_skills`
and `preferred_skills` normalize to the empty set the skills score is 0. -/
theorem skills_score_formula (resume_skills : List String) (criteria : ScreeningCriteria) :
    ((calculate_skills_score resume_skills criteria).score =
      ((((setNorm resume_skills).toFinset ∩ (setNorm criteria.required_skills).toFinset).card : ℚ) /
          ((max (setNorm criteria.required_skills).toFinset.card 1 : Nat) : ℚ) * (8/10) +
        (if (setNorm criteria.preferred_skills).toFinset ≠ ∅ then
            (((setNorm resume_skills).toFinset ∩ (setNorm criteria.preferred_skills).toFinset).card : ℚ) /
              (((setNorm criteria.preferred_skills).toFinset.card : Nat) : ℚ)
          else 0) * (2/10)) * 100) ∧
    ((setNorm criteria.required_skills).toFinset = ∅ →
      (setNorm criteria.preferred_skills).toFinset = ∅ →
      (calculate_skills_score resume_skills criteria).score = 0) := by
  constructor
  · simp only [calculate_skills_score]
    rw [length_filter_mem _ _ (setNorm_nodup resume_skills),
      length_filter_mem _ _ (setNorm_nodup resume_skills),
      setNorm_toFinset_card, setNorm_toFinset_card]
    by_cases hp : (setNorm criteria.preferred_skills).isEmpty
    · rw [if_pos hp, if_neg (by simpa using (setNorm_isEmpty_iff _).mp hp)]
    · have hne : ¬ (setNorm criteria.preferred_skills).toFinset = ∅ := by
        intro h
        exact hp ((setNorm_isEmpty_iff _).mpr h)
      rw [if_neg hp, if_pos hne]
      have hlen : (setNorm criteria.preferred_skills).length ≠ 0 := by
        intro h
        exact hp (List.isEmpty_iff_length_eq_zero.mpr h)
      have : max (setNorm criteria.preferred_skills).length 1 =
          (setNorm criteria.preferred_skills).length :=
        Nat.max_eq_left (Nat.one_le_iff_ne_zero.mpr hlen)
      rw [this]
  · intro hreq hpref
    simp only [calculate_skills_score]
    have h1 : (setNorm criteria.required_skills) = [] :=
      List.toFinset_eq_empty_iff _ |>.mp hreq
    have h2 : (setNorm criteria.preferred_skills) = [] :=
      List.toFinset_eq_empty_iff _ |>.mp hpref
    simp [h1, h2]

/-- **C10.** In every `ScreeningResult` of `screen_resume`, the sets
underlying `matched_required_skills` and `missing_required_skills` are
disjoint and their union is the normalized set of `required_skills`;
`matched_preferred_skills` is a subset both of the normalized
`preferred_skills` and of the normalized resume skill set. -/
theorem screen_resume_skill_set_algebra (resume : Resume) (criteria : ScreeningCriteria) :
    (Disjoint (screen_resume resume criteria).matched_required_skills.toFinset
        (screen_resume resume criteria).missing_required_skills.toFinset ∧
      (screen_resume resume criteria).matched_required_skills.toFinset ∪
          (screen_resume resume criteria).missing_required_skills.toFinset =
        (setNorm criteria.required_skills).toFinset) ∧
    ((screen_resume resume criteria).matched_preferred_skills.toFinset ⊆
        (setNorm criteria.preferred_skills).toFinset ∧
      (screen_resume resume criteria).matched_preferred_skills.toFinset ⊆
        (setNorm (all_skills resume)).toFinset) := by
  have hmr : (screen_resume resume criteria).matched_required_skills =
      (setNorm (all_skills resume)).filter (fun s => s ∈ setNorm criteria.required_skills) := rfl
  have hms : (screen_resume resume criteria).missing_required_skills =
      (setNorm criteria.required_skills).filter (fun s => s ∉ setNorm (all_skills resume)) := rfl
  have hmp : (screen_resume resume criteria).matched_preferred_skills =
      (setNorm (all_skills resume)).filter (fun s => s ∈ setNorm criteria.preferred_skills) := rfl
  rw [hmr, hms, hmp, filter_mem_toFinset, filter_not_mem_toFinset, filter_mem_toFinset]
  refine ⟨⟨?_, ?_⟩, ?_, ?_⟩
  · exact Finset.disjoint_left.mpr (fun a ha hb => (Finset.mem_sdiff.mp hb).2 (Finset.mem_inter.mp ha).1)
  · rw [Finset.inter_comm]
    exact sup_inf_sdiff _ _
  · exact Finset.inter_subset_right
  · exact Finset.inter_subset_left

/-- **C4.** The education score is 100 when no level is required; otherwise it
compares the candidate's maximum matched ordinal (first vocabulary substring
match per entry, 0 when none matches) with the required ordinal, returning
100 when the candidate reaches it and `(candidate_max / required) * 100`
otherwise; requiring `"phd"` against a single `"Bachelor of Arts"` degree
yields 60. -/
theorem education_score_formula (education : List Education) (criteria : ScreeningCriteria) :
    (calculate_education_score education criteria =
      match criteria.required_education_level with
      | none => 100
      | some s =>
        if lookup_level (lowerStr s) ≤ maxCandidateLevel education then 100
        else ((maxCandidateLevel education : ℚ) / ((lookup_level (lowerStr s) : Nat) : ℚ)) * 100) ∧
    calculate_education_score
      [{ institution := "State University", degree := "Bachelor of Arts" }]
      { required_education_level := some "phd" } = 60 := by
  constructor
  · match hreq : criteria.required_education_level with
    | none => simp [calculate_education_score, hreq, optStrFalsy]
    | some s =>
      by_cases hs : s = ""
      · subst hs
        have h0 : lookup_level (lowerStr "") = 0 := rfl
        simp [calculate_education_score, hreq, optStrFalsy, h0]
      · simp only [calculate_education_score, hreq, optStrFalsy, Option.getD,
          decide_eq_true_eq, if_neg hs, ge_iff_le]
  · have h5 : lookup_level (lowerStr "phd") = 5 := rfl
    have h3 : maxCandidateLevel
        [{ institution := "State University", degree := "Bachelor of Arts" }] = 3 := rfl
    simp only [calculate_education_score, optStrFalsy, Option.getD, decide_eq_true_eq]
    rw [if_neg (by decide), h5, h3, if_neg (by norm_num)]
    norm_num

/-- **C5.** When the required education level is a non-empty string whose
ordinal resolves to 0 (it is no key of the vocabulary), the comparison branch
that avoids the division is taken (the required ordinal never exceeds the
candidate maximum), so the scorer performs no division by zero and returns
100. -/
theorem education_score_unknown_level_safe (education : List Education)
    (criteria : ScreeningCriteria) (s : String)
    (hreq : criteria.required_education_level = some s) (hs : s ≠ "")
    (h0 : lookup_level (lowerStr s) = 0) :
    lookup_level (lowerStr s) ≤ maxCandidateLevel education ∧
    calculate_education_score education criteria = 100 := by
  refine ⟨h0 ▸ Nat.zero_le _, ?_⟩
  simp only [calculate_education_score, hreq, optStrFalsy, Option.getD, decide_eq_true_eq]
  rw [if_neg hs, if_pos (by rw [h0]; exact Nat.zero_le _)]

/-- Witness for C5 at the concrete unrecognized level `"bootcamp"`. -/
theorem education_score_unknown_level_safe_witness :
    lookup_level (lowerStr "bootcamp") ≤
      maxCandidateLevel [{ institution := "X", degree := "Master of Science" }] ∧
    calculate_education_score [{ institution := "X", degree := "Master of Science" }]
      { required_education_level := some "bootcamp" } = 100 :=
  education_score_unknown_level_safe
    [{ institution := "X", degree := "Master of Science" }]
    { required_education_level := some "bootcamp" }
    "bootcamp" rfl (by decide) rfl

/-- **C6.** Total experience years are `2 * (number of experience entries)`;
the experience score is 100 when `min_years_experience` is unset or 0, 100
when the total reaches the minimum, and `(total / min) * 100` otherwise; a
minimum of 4 against one experience entry yields 50. -/
theorem experience_score_formula (experiences : List Experience) (criteria : ScreeningCriteria) :
    (calculate_experience_years experiences = 2 * experiences.length) ∧
    (calculate_experience_score experiences criteria =
      match criteria.min_years_experience with
      | none => 100
      | some m =>
        if m = 0 then 100
        else if m ≤ (2 * experiences.length : Int) then 100
        else ((2 * experiences.length : Int) : ℚ) / (m : ℚ) * 100) ∧
    calculate_experience_score [{ company := "Acme", title := "Engineer" }]
      { min_years_experience := some 4 } = 50 := by
  refine ⟨Nat.mul_comm _ _, ?_, ?_⟩
  · match hm : criteria.min_years_experience with
    | none => simp [calculate_experience_score, hm, optIntFalsy]
    | some m =>
      by_cases h0 : m = 0
      · subst h0
        simp [calculate_experience_score, hm, optIntFalsy]
      · have htot : ((calculate_experience_years experiences : Nat) : Int) =
            (2 * experiences.length : Int) := by
          simp [calculate_experience_years]
          ring
        simp only [calculate_experience_score, hm, optIntFalsy, Option.getD,
          decide_eq_true_eq, if_neg h0, ge_iff_le, htot]
  · simp only [calculate_experience_score, optIntFalsy, Option.getD, decide_eq_true_eq,
      calculate_experience_years]
    rw [if_neg (by norm_num), if_neg (by norm_num)]
    norm_num

/-- **C2.** All four scores of a `ScreeningResult` lie in `[0, 100]`, and each
is rounded to two decimal places (multiplying by 100 yields an integer). -/
theorem screen_resume_scores_in_range (resume : Resume) (criteria : ScreeningCriteria) :
    (0 ≤ (screen_resume resume criteria).overall_score ∧
      (screen_resume resume criteria).overall_score ≤ 100 ∧
      ((screen_resume resume criteria).overall_score * 100).den = 1) ∧
    (0 ≤ (screen_resume resume criteria).skills_score ∧
      (screen_resume resume criteria).skills_score ≤ 100 ∧
      ((screen_resume resume criteria).skills_score * 100).den = 1) ∧
    (0 ≤ (screen_resume resume criteria).experience_score ∧
      (screen_resume resume criteria).experience_score ≤ 100 ∧
      ((screen_resume resume criteria).experience_score * 100).den = 1) ∧
    (0 ≤ (screen_resume resume criteria).education_score ∧
      (screen_resume resume criteria).education_score ≤ 100 ∧
      ((screen_resume resume criteria).education_score * 100).den = 1) := by
  have ho : (screen_resume resume criteria).overall_score =
      round2 (overall_raw resume criteria) := rfl
  have hs : (screen_resume resume criteria).skills_score =
      round2 (calculate_skills_score (all_skills resume) criteria).score := rfl
  have hx : (screen_resume resume criteria).experience_score =
      round2 (calculate_experience_score resume.experience criteria) := rfl
  have he : (screen_resume resume criteria).education_score =
      round2 (calculate_education_score resume.education criteria) := rfl
  obtain ⟨ho0, ho1⟩ := overall_raw_bounds resume criteria
  obtain ⟨hs0, hs1⟩ := skills_score_bounds (all_skills resume) criteria
  obtain ⟨hx0, hx1⟩ := experience_score_bounds resume.experience criteria
  obtain ⟨he0, he1⟩ := education_score_bounds resume.education criteria
  rw [ho, hs, hx, he]
  exact ⟨⟨round2_nonneg _ ho0, round2_le_100 _ ho1, round2_den _⟩,
    ⟨round2_nonneg _ hs0, round2_le_100 _ hs1, round2_den _⟩,
    ⟨round2_nonneg _ hx0, round2_le_100 _ hx1, round2_den _⟩,
    ⟨round2_nonneg _ he0, round2_le_100 _ he1, round2_den _⟩⟩

/-- **C7.** The rounded overall score is the rounding of: skills*0.4 +
experience*0.3 + education*0.2, plus — exactly when `key_accomplishments` is
non-empty — the bonus `min(10, len/50)`, capped at 100.  The configured
accomplishments weight (0.1) exists but never appears as a multiplier. -/
theorem overall_score_formula (resume : Resume) (criteria : ScreeningCriteria) :
    ((screen_resume resume criteria).overall_score = round2 (overall_raw resume criteria)) ∧
    (overall_raw resume criteria =
      min 100 ((calculate_skills_score (all_skills resume) criteria).score * (4/10) +
        calculate_experience_score resume.experience criteria * (3/10) +
        calculate_education_score resume.education criteria * (2/10) +
        (if resume.key_accomplishments ≠ "" then
          min 10 ((resume.key_accomplishments.length : ℚ) / 50) else 0))) ∧
    DEFAULT_SCORING_WEIGHTS.accomplishments = 1/10 :=
  ⟨rfl, overall_raw_eq resume criteria, rfl⟩

/-- **C8.** The recommendations list is built in the fixed order: the missing
required skills message exactly when `missing_required_skills` is non-empty,
the education message exactly when the education score is below 80, the
experience message exactly when the experience score is below 70, and exactly
one closing verdict chosen by the overall-score thresholds 80 and 60 — so
the list is never empty. -/
theorem recommendations_structure (resume : Resume) (criteria : ScreeningCriteria) :
    ((screen_resume resume criteria).recommendations =
      (if (calculate_skills_score (all_skills resume) criteria).missing_required ≠ [] then
          ["Missing required skills: " ++ String.intercalate ", "
            (calculate_skills_score (all_skills resume) criteria).missing_required]
        else []) ++
      (if calculate_education_score resume.education criteria < 80 then
          ["Education level below preferred requirement"] else []) ++
      (if calculate_experience_score resume.experience criteria < 70 then
          ["Experience level below minimum requirement"] else []) ++
      [if (80 : ℚ) ≤ overall_raw resume criteria then
          "Strong candidate - recommended for interview"
        else if (60 : ℚ) ≤ overall_raw resume criteria then
          "Good candidate - consider for screening call"
        else "Below minimum requirements"]) ∧
    (screen_resume resume criteria).recommendations ≠ [] := by
  constructor
  · simp only [screen_resume, ne_eq, List.length_eq_zero]
  · simp only [screen_resume]
    simp

/-- **C1 (amended).** `qualified` is true exactly when
`missing_required_skills` is empty and the overall score *before rounding*
is at least 60 (the code decides qualification on the unrounded value; see
the counterexample for the rounded field). -/
theorem qualified_iff_missing_empty_and_raw_ge_60 (resume : Resume) (criteria : ScreeningCriteria) :
    (screen_resume resume criteria).qualified = true ↔
      ((screen_resume resume criteria).missing_required_skills = [] ∧
        60 ≤ overall_raw resume criteria) := by
  have hq : (screen_resume resume criteria).qualified =
      (decide ((calculate_skills_score (all_skills resume) criteria).missing_required.length = 0) &&
        decide ((60 : ℚ) ≤ overall_raw resume criteria)) := rfl
  have hm : (screen_resume resume criteria).missing_required_skills =
      (calculate_skills_score (all_skills resume) criteria).missing_required := rfl
  rw [hq, hm, Bool.and_eq_true, decide_eq_true_iff, decide_eq_true_iff, List.length_eq_zero]

/-- **C1 (counterexample).** On `cexResume` / `cexCriteria` the *rounded*
`overall_score` field is 60 and no required skill is missing, yet
`qualified` is `false`: the unrounded overall score is 9002999/150050, just
below 60, and qualification is decided before rounding.  So "`qualified` iff
`missing_required_skills` empty and the `overall_score` field ≥ 60" fails. -/
theorem qualified_field_threshold_cex :
    (screen_resume cexResume cexCriteria).missing_required_skills = [] ∧
    60 ≤ (screen_resume cexResume cexCriteria).overall_score ∧
    (screen_resume cexResume cexCriteria).qualified = false := by
  have e1 : (calculate_skills_score (all_skills cexResume) cexCriteria).score =
      (((1:ℕ):ℚ) / ((1:ℕ):ℚ) * (8/10) + 0 * (2/10)) * 100 := rfl
  have hsk : (calculate_skills_score (all_skills cexResume) cexCriteria).score = 80 := by
    rw [e1]; norm_num
  have e2 : calculate_experience_score cexResume.experience cexCriteria =
      (((2:ℕ):ℤ):ℚ) / (((3001:ℤ)):ℚ) * 100 := rfl
  have hx : calculate_experience_score cexResume.experience cexCriteria = 200/3001 := by
    rw [e2]; push_cast; norm_num
  have hedu : calculate_education_score cexResume.education cexCriteria = 100 := rfl
  have hkey : cexResume.key_accomplishments ≠ "" := by decide
  have hlen : (cexResume.key_accomplishments.length : ℚ) = 399 := by
    have h : cexResume.key_accomplishments.length = 399 := rfl
    rw [h]; norm_num
  have hor : overall_raw cexResume cexCriteria = 9002999/150050 := by
    rw [overall_raw_eq, hsk, hx, hedu, if_pos hkey, hlen,
      min_eq_right (by norm_num : (399:ℚ)/50 ≤ 10),
      min_eq_right (by norm_num : (80:ℚ) * (4/10) + 200/3001 * (3/10) + 100 * (2/10) + 399/50 ≤ 100)]
    norm_num
  have hlt : overall_raw cexResume cexCriteria < 60 := by rw [hor]; norm_num
  refine ⟨rfl, ?_, ?_⟩
  · have hfield : (screen_resume cexResume cexCriteria).overall_score =
        round2 (overall_raw cexResume cexCriteria) := rfl
    have hr : round ((9002999:ℚ)/150050 * 100) = 6000 := by
      rw [round_eq,
        show (9002999:ℚ)/150050 * 100 + 1/2 = 36014997/6002 from by norm_num]
      norm_num [Int.floor_eq_iff]
    rw [hfield, hor, round2, hr]
    norm_num
  · have hq : (screen_resume cexResume cexCriteria).qualified =
        (decide ((calculate_skills_score (all_skills cexResume) cexCriteria).missing_required.length = 0) &&
          decide ((60 : ℚ) ≤ overall_raw cexResume cexCriteria)) := rfl
    rw [hq, decide_eq_false (not_le.mpr hlt), Bool.and_false]

theorem filter_orderedInsert_eq (x : ScreeningResult) (l : List ScreeningResult) (q : ℚ)
    (hx : x.overall_score = q) :
    (List.orderedInsert byScoreDesc x l).filter (fun r => decide (r.overall_score = q)) =
      x :: l.filter (fun r => decide (r.overall_score = q)) := by
  induction l with
  | nil => simp [List.orderedInsert, hx]
  | cons y t ih =>
    rw [List.orderedInsert]
    by_cases h : byScoreDesc x y
    · rw [if_pos h]
      simp [List.filter_cons, hx]
    · rw [if_neg h]
      have hy : y.overall_score ≠ q := by
        intro he
        exact h (le_of_eq (by rw [he, hx]))
      simp [List.filter_cons, hy, ih]

theorem filter_orderedInsert_ne (x : ScreeningResult) (l : List ScreeningResult) (q : ℚ)
    (hx : x.overall_score ≠ q) :
    (List.orderedInsert byScoreDesc x l).filter (fun r => decide (r.overall_score = q)) =
      l.filter (fun r => decide (r.overall_score = q)) := by
  induction l with
  | nil => simp [List.orderedInsert, hx]
  | cons y t ih =>
    rw [List.orderedInsert]
    by_cases h : byScoreDesc x y
    · rw [if_pos h]
      simp [List.filter_cons, hx]
    · rw [if_neg h]
      simp [List.filter_cons, ih]

theorem filter_insertionSort (q : ℚ) (l : List ScreeningResult) :
    (List.insertionSort byScoreDesc l).filter (fun r => decide (r.overall_score = q)) =
      l.filter (fun r => decide (r.overall_score = q)) := by
  induction l with
  | nil => rfl
  | cons x t ih =>
    rw [List.insertionSort]
    by_cases hx : x.overall_score = q
    · rw [filter_orderedInsert_eq x _ q hx, ih]
      simp [List.filter_cons, hx]
    · rw [filter_orderedInsert_ne x _ q hx, ih]
      simp [List.filter_cons, hx]

theorem batch_fold_eq (get_job_status : String → Option ResumeExtractionJob)
    (screen : Resume → ScreeningCriteria → Except String ScreeningResult)
    (criteria : ScreeningCriteria) (include_unqualified : Bool)
    (job_ids : List String) (acc : List ScreeningResult) :
    job_ids.foldl (fun acc job_id =>
      match get_job_status job_id with
      | some job =>
        if job.status = "SUCCESS" then
          match job.extracted_data with
          | some resume =>
            match screen resume criteria with
            | Except.ok result =>
              if include_unqualified || result.qualified then acc ++ [result] else acc
            | Except.error _ => acc
          | none => acc
        else acc
      | none => acc) acc
      = acc ++ job_ids.filterMap (screen_step get_job_status screen criteria include_unqualified) := by
  induction job_ids generalizing acc with
  | nil => simp
  | cons i t ih =>
    simp only [List.foldl_cons, List.filterMap_cons]
    have hbody : (match get_job_status i with
      | some job =>
        if job.status = "SUCCESS" then
          match job.extracted_data with
          | some resume =>
            match screen resume criteria with
            | Except.ok result =>
              if include_unqualified || result.qualified then acc ++ [result] else acc
            | Except.error _ => acc
          | none => acc
        else acc
      | none => acc)
        = acc ++ (match screen_step get_job_status screen criteria include_unqualified i with
          | some r => [r]
          | none => []) := by
      unfold screen_step
      cases hg : get_job_status i with
      | none => simp
      | some job =>
        obtain ⟨jid, jfn, jst, jerr, jdata⟩ := job
        by_cases hst : jst = "SUCCESS"
        · subst hst
          cases jdata with
          | none => simp
          | some resume =>
            cases hscr : screen resume criteria with
            | ok result =>
              by_cases hk : (include_unqualified || result.qualified) = true
              · simp [hscr, hk]
              · simp [hscr, hk]
            | error e => simp [hscr]
        · simp [hst]
    rw [hbody]
    cases hs : screen_step get_job_status screen criteria include_unqualified i with
    | none =>
      simp only [hs]
      rw [List.append_nil]
      exact ih acc
    | some r =>
      simp only [hs]
      rw [ih (acc ++ [r]), List.append_assoc]
      rfl

/-- **C9.** Batch screening equals: resolve each id, keep only records with
status `"SUCCESS"` and extracted data, drop any resume whose screening
raises (`Except.error` never propagates), keep a result exactly when
`include_unqualified` is true or it is qualified, and stable-sort by
`overall_score` descending — the output is sorted, and for every score value
the results carrying it appear in first-seen order (stability). -/
theorem batch_screen_spec (get_job_status : String → Option ResumeExtractionJob)
    (screen : Resume → ScreeningCriteria → Except String ScreeningResult)
    (job_ids : List String) (criteria : ScreeningCriteria) (include_unqualified : Bool) :
    (batch_screen_resumes get_job_status screen job_ids criteria include_unqualified =
      List.insertionSort byScoreDesc
        (job_ids.filterMap (screen_step get_job_status screen criteria include_unqualified))) ∧
    List.Sorted byScoreDesc
      (batch_screen_resumes get_job_status screen job_ids criteria include_unqualified) ∧
    (∀ q : ℚ,
      (batch_screen_resumes get_job_status screen job_ids criteria include_unqualified).filter
          (fun r => decide (r.overall_score = q)) =
        (job_ids.filterMap (screen_step get_job_status screen criteria include_unqualified)).filter
          (fun r => decide (r.overall_score = q))) := by
  have h1 : batch_screen_resumes get_job_status screen job_ids criteria include_unqualified =
      List.insertionSort byScoreDesc
        (job_ids.filterMap (screen_step get_job_status screen criteria include_unqualified)) := by
    unfold batch_screen_resumes
    rw [batch_fold_eq get_job_status screen criteria include_unqualified job_ids [],
      List.nil_append]
  refine ⟨h1, ?_, ?_⟩
  · rw [h1]
    exact List.sorted_insertionSort byScoreDesc _
  · intro q
    rw [h1, filter_insertionSort]

end ResumeScanner
